import Mathlib

/-!
Shallow embedding of the LinkedIn automation dashboard backend
(`backend/server.py`): the persisted document store, the lifecycle
endpoints for the automation state, the credentials endpoint, the
rate-limit configuration update, and the dashboard statistics endpoint.
Timestamps are abstracted to natural numbers (an instant on a global
clock); MongoDB single-document collections become `Option` fields of a
`DB` record, and each HTTP handler becomes a function from the store (and
the current clock) to the updated store and its response.
-/

namespace LinkedIn

/-- The four automation lifecycle statuses of `AutomationStatus` in the source. -/
inductive AutomationStatus where
  | idle
  | running
  | paused
  | error
deriving DecidableEq, Repr

/-- The four connection statuses of `ConnectionStatus` in the source. -/
inductive ConnectionStatus where
  | pending
  | accepted
  | declined
  | failed
deriving DecidableEq, Repr

/-- The stored credentials document (`LinkedInCredentials` in the source). -/
structure LinkedInCredentials where
  id : String
  email : String
  password : String
  encrypted : Bool
  created_at : Nat
  updated_at : Nat
deriving DecidableEq, Repr

/-- The singleton automation state document (`AutomationState` in the source),
with the pydantic field defaults. -/
structure AutomationState where
  status : AutomationStatus := .idle
  current_task : Option String := none
  connections_today : Nat := 0
  messages_today : Nat := 0
  last_action_at : Option Nat := none
  started_at : Option Nat := none
  error_message : Option String := none
deriving DecidableEq, Repr

/-- One activity-log document (`ActivityLog` in the source); only the fields
the claims mention are carried. -/
structure ActivityLog where
  action_type : String
  description : String
  status : String
deriving DecidableEq, Repr

/-- A connection record (`Connection` in the source); only the fields read by
the dashboard-statistics endpoint are carried. -/
structure Connection where
  status : ConnectionStatus
  created_at : Nat
deriving DecidableEq, Repr

/-- A message record (`Message` in the source); only the field read by the
dashboard-statistics endpoint is carried. -/
structure Message where
  sent_at : Nat
deriving DecidableEq, Repr

/-- The stored rate-limit configuration (`RateLimitConfig` in the source) with
its pydantic defaults. Python integers are signed and unbounded, so the
numeric fields are `Int`. -/
structure RateLimitConfig where
  daily_connection_limit : Int := 50
  daily_message_limit : Int := 100
  min_action_delay_ms : Int := 5000
  max_action_delay_ms : Int := 15000
  business_hours_start : Int := 9
  business_hours_end : Int := 18
  skip_weekends : Bool := true
  updated_at : Nat := 0
deriving DecidableEq, Repr

/-- The partial update body of `PUT /rate-limits` (`RateLimitConfigUpdate` in
the source): every field optional, `none` meaning "field not supplied or sent
as null". -/
structure RateLimitConfigUpdate where
  daily_connection_limit : Option Int := none
  daily_message_limit : Option Int := none
  min_action_delay_ms : Option Int := none
  max_action_delay_ms : Option Int := none
  business_hours_start : Option Int := none
  business_hours_end : Option Int := none
  skip_weekends : Option Bool := none
deriving DecidableEq, Repr

/-- The persisted store: each MongoDB collection the verified endpoints touch.
`credentials`, `automation_state` and `rate_limits` are single-document
collections, so they are `Option` fields. -/
structure DB where
  credentials : Option LinkedInCredentials := none
  automation_state : Option AutomationState := none
  rate_limits : Option RateLimitConfig := none
  activity_logs : List ActivityLog := []
  connections : List Connection := []
  messages : List Message := []
deriving Repr

/-- An HTTP error response (a raised `HTTPException` in the source). -/
structure HttpError where
  status_code : Nat
  detail : String
deriving DecidableEq, Repr

/-- The JSON body the lifecycle endpoints return:
`{"message": ..., "status": ...}`. -/
structure CommandResponse where
  message : String
  status : String
deriving DecidableEq, Repr

/-- Helper `log_activity` of the source: appends one activity-log document. -/
def log_activity (db : DB) (action_type description status : String) : DB :=
  { db with activity_logs := db.activity_logs ++ [⟨action_type, description, status⟩] }

/-- MongoDB `update_one` with `upsert=True` on the singleton automation-state
document: when the document exists the `$set` fields are merged into it; when
it does not, the written fields land in a fresh document whose remaining
fields read back through the pydantic defaults. -/
def upsertAutomationState (s : Option AutomationState) (f : AutomationState → AutomationState) :
    AutomationState :=
  f (s.getD {})

/-- Handler of `POST /automation/start` (`start_automation` in the source):
raise 400 when no credentials document exists, otherwise `$set` status to
running, `started_at` to now and `error_message` to null, then write one
activity-log entry. The store is returned alongside the outcome; on the
error path no write has happened yet, so the store comes back unchanged. -/
def start_automation (db : DB) (now : Nat) : DB × Except HttpError CommandResponse :=
  if db.credentials.isNone then
    (db, .error ⟨400, "LinkedIn credentials not configured"⟩)
  else
    let st := upsertAutomationState db.automation_state
      (fun s => { s with status := .running, started_at := some now, error_message := none })
    let db1 := { db with automation_state := some st }
    let db2 := log_activity db1 "automation" "Automation started" "success"
    (db2, .ok ⟨"Automation started", "running"⟩)

/-- Handler of `POST /automation/stop` (`stop_automation` in the source):
unconditionally `$set` status to idle and `current_task` to null, then write
one activity-log entry. -/
def stop_automation (db : DB) : DB × CommandResponse :=
  let st := upsertAutomationState db.automation_state
    (fun s => { s with status := .idle, current_task := none })
  let db1 := { db with automation_state := some st }
  (log_activity db1 "automation" "Automation stopped" "success", ⟨"Automation stopped", "idle"⟩)

/-- Handler of `POST /automation/pause` (`pause_automation` in the source):
unconditionally `$set` status to paused, then write one activity-log entry. -/
def pause_automation (db : DB) : DB × CommandResponse :=
  let st := upsertAutomationState db.automation_state (fun s => { s with status := .paused })
  let db1 := { db with automation_state := some st }
  (log_activity db1 "automation" "Automation paused" "success", ⟨"Automation paused", "paused"⟩)

/-- Handler of `POST /automation/resume` (`resume_automation` in the source):
unconditionally `$set` status to running, then write one activity-log entry. -/
def resume_automation (db : DB) : DB × CommandResponse :=
  let st := upsertAutomationState db.automation_state (fun s => { s with status := .running })
  let db1 := { db with automation_state := some st }
  (log_activity db1 "automation" "Automation resumed" "success", ⟨"Automation resumed", "running"⟩)

/-- The JSON body `GET /credentials` returns: configured flag, email and
`updated_at` only. -/
structure CredentialsResponse where
  configured : Bool
  email : String
  updated_at : Option Nat
deriving DecidableEq, Repr

/-- Handler of `GET /credentials` (`get_credentials` in the source): reports
whether a credentials document exists together with its email and
`updated_at`; the password is never placed in the response. -/
def get_credentials (db : DB) : CredentialsResponse :=
  match db.credentials with
  | some c => ⟨true, c.email, some c.updated_at⟩
  | none => ⟨false, "", none⟩

/-- Merging the non-null fields of a `RateLimitConfigUpdate` into a stored
configuration, as MongoDB `$set` of `update_data` does in
`update_rate_limits`; `updated_at` is always rewritten to the current time. -/
def applyRateLimitUpdate (cfg : RateLimitConfig) (u : RateLimitConfigUpdate) (now : Nat) :
    RateLimitConfig :=
  { daily_connection_limit := u.daily_connection_limit.getD cfg.daily_connection_limit
    daily_message_limit := u.daily_message_limit.getD cfg.daily_message_limit
    min_action_delay_ms := u.min_action_delay_ms.getD cfg.min_action_delay_ms
    max_action_delay_ms := u.max_action_delay_ms.getD cfg.max_action_delay_ms
    business_hours_start := u.business_hours_start.getD cfg.business_hours_start
    business_hours_end := u.business_hours_end.getD cfg.business_hours_end
    skip_weekends := u.skip_weekends.getD cfg.skip_weekends
    updated_at := now }

/-- Handler of `PUT /rate-limits` (`update_rate_limits` in the source): merge
the supplied fields into the existing document, or, when no document exists,
into a default-constructed `RateLimitConfig` (pydantic fills the omitted
fields with their defaults). Returns the stored configuration. -/
def update_rate_limits (existing : Option RateLimitConfig) (u : RateLimitConfigUpdate)
    (now : Nat) : RateLimitConfig :=
  match existing with
  | some cfg => applyRateLimitUpdate cfg u now
  | none => applyRateLimitUpdate {} u now

/-- The invariant the specification states for `RateLimitConfig`: positive
daily limits, ordered non-negative delay bounds, business hours within 0–23
and start strictly before end. -/
def RateLimitInvariant (c : RateLimitConfig) : Prop :=
  0 < c.daily_connection_limit ∧ 0 < c.daily_message_limit ∧
  0 ≤ c.min_action_delay_ms ∧ c.min_action_delay_ms ≤ c.max_action_delay_ms ∧
  0 ≤ c.business_hours_start ∧ c.business_hours_start ≤ 23 ∧
  0 ≤ c.business_hours_end ∧ c.business_hours_end ≤ 23 ∧
  c.business_hours_start < c.business_hours_end

instance (c : RateLimitConfig) : Decidable (RateLimitInvariant c) := by
  unfold RateLimitInvariant
  infer_instance

/-! Token-bucket limiter. The execution engine is not part of the repository
(starting automation only flips the status flag), so the limiter below is
modelled from the specification text of §4.2. -/

/-- The two action kinds the daily quotas govern. -/
inductive ActionKind where
  | connect
  | message
deriving DecidableEq, Repr

/-- Modelled from the spec: the limiter state of §4.2 — two per-kind daily
counters and the UTC date (a day number) of the last consumed action, the
date `last_action_at` falls on. The execution engine holding this state is
absent from the repository. -/
structure LimiterState where
  connections_today : Nat
  messages_today : Nat
  last_action_date : Option Nat
deriving DecidableEq, Repr

/-- The limiter state before any action was ever attempted. -/
def initLimiter : LimiterState := ⟨0, 0, none⟩

/-- The daily cap `RateLimitConfig` assigns to an action kind. -/
def limitOf (cfg : RateLimitConfig) (k : ActionKind) : Int :=
  match k with
  | .connect => cfg.daily_connection_limit
  | .message => cfg.daily_message_limit

/-- The per-kind daily counter of a limiter state. -/
def countOf (st : LimiterState) (k : ActionKind) : Nat :=
  match k with
  | .connect => st.connections_today
  | .message => st.messages_today

/-- Modelled from the spec: day-boundary handling of §4.2 — the current
action's UTC date is compared with the date of `last_action_at`; crossing a
boundary resets both counters to zero exactly once, after which the state
counts for the current date. -/
def resetIfNewDay (st : LimiterState) (day : Nat) : LimiterState :=
  match st.last_action_date with
  | some d => if d = day then st else ⟨0, 0, some day⟩
  | none => st

/-- Modelled from the spec: `TryConsume(kind) -> allowed` of §4.2 — after the
day-boundary check, allowed iff `count_today(kind) < limit(kind)`. The
counter is not incremented here. -/
def tryConsume (cfg : RateLimitConfig) (st : LimiterState) (day : Nat) (k : ActionKind) :
    Bool × LimiterState :=
  let st1 := resetIfNewDay st day
  (decide ((countOf st1 k : Int) < limitOf cfg k), st1)

/-- Modelled from the spec: the caller increments the counter of `kind` only
after a successful dispatch, and updates `last_action_at` (here: its UTC
date). -/
def recordSuccess (st : LimiterState) (day : Nat) (k : ActionKind) : LimiterState :=
  match k with
  | .connect => { st with connections_today := st.connections_today + 1, last_action_date := some day }
  | .message => { st with messages_today := st.messages_today + 1, last_action_date := some day }

/-- One action attempt in a consumption history: its UTC date, its kind, and
whether the dispatch would succeed if the limiter allows it. -/
structure Attempt where
  day : Nat
  kind : ActionKind
  dispatch_success : Bool
deriving DecidableEq, Repr

/-- Modelled from the spec: one Action-Loop interaction with the limiter —
ask `tryConsume`; on allowed and a successful dispatch the counter of the
kind is incremented, on denied or failed dispatch nothing is consumed.
Returns the new state and whether quota was consumed. -/
def limiterStep (cfg : RateLimitConfig) (st : LimiterState) (a : Attempt) :
    LimiterState × Bool :=
  let r := tryConsume cfg st a.day a.kind
  if r.fst && a.dispatch_success then (recordSuccess r.snd a.day a.kind, true)
  else (r.snd, false)

/-- Folding a consumption history through the limiter. -/
def runLimiter (cfg : RateLimitConfig) (st : LimiterState) : List Attempt → LimiterState
  | [] => st
  | a :: rest => runLimiter cfg (limiterStep cfg st a).fst rest

/-- How many attempts of kind `k` in a history actually consume quota. -/
def consumedCount (cfg : RateLimitConfig) (st : LimiterState) (k : ActionKind) :
    List Attempt → Nat
  | [] => 0
  | a :: rest =>
    let r := limiterStep cfg st a
    (if r.snd && (a.kind == k) then 1 else 0) + consumedCount cfg r.fst k rest

/-! Dashboard statistics. -/

/-- The body `GET /dashboard/stats` returns (`DashboardStats` in the source).
The success rate is a rational here; Python computes it in floating point and
rounds to one decimal place. -/
structure DashboardStats where
  total_connections : Nat
  pending_connections : Nat
  accepted_connections : Nat
  total_messages : Nat
  messages_today : Nat
  connections_today : Nat
  automation_status : AutomationStatus
  success_rate : ℚ
deriving DecidableEq, Repr

/-- Rounding to the nearest integer with ties to even, the behaviour of
Python's builtin `round`. -/
def roundHalfEven (q : ℚ) : ℤ :=
  if Int.fract q < 1 / 2 then ⌊q⌋
  else if 1 / 2 < Int.fract q then ⌊q⌋ + 1
  else if ⌊q⌋ % 2 = 0 then ⌊q⌋ else ⌊q⌋ + 1

/-- Python's `round(x, 1)`: rounding to one decimal place, ties to even. -/
def round1 (q : ℚ) : ℚ := (roundHalfEven (q * 10) : ℚ) / 10

/-- Handler of `GET /dashboard/stats` (`get_dashboard_stats` in the source):
counts over the connection and message collections, the automation status
(idle when no state document exists), and the success rate — zero when there
are no connections, otherwise accepted over total times one hundred, rounded
to one decimal place. `todayStart` is the UTC midnight instant the source
computes from the current time. -/
def get_dashboard_stats (db : DB) (todayStart : Nat) : DashboardStats :=
  let total_connections := db.connections.length
  let pending_connections := db.connections.countP (fun c => c.status == .pending)
  let accepted_connections := db.connections.countP (fun c => c.status == .accepted)
  let total_messages := db.messages.length
  let messages_today := db.messages.countP (fun m => todayStart ≤ m.sent_at)
  let connections_today := db.connections.countP (fun c => todayStart ≤ c.created_at)
  let automation_status :=
    match db.automation_state with
    | some s => s.status
    | none => AutomationStatus.idle
  let success_rate : ℚ :=
    if 0 < total_connections then ((accepted_connections : ℚ) / (total_connections : ℚ)) * 100
    else 0
  ⟨total_connections, pending_connections, accepted_connections, total_messages,
    messages_today, connections_today, automation_status, round1 success_rate⟩

/-! Concrete fixtures used by counterexamples and witnesses. -/

/-- A concrete stored credentials document. -/
def sampleCreds : LinkedInCredentials :=
  ⟨"cred-1", "user@example.com", "hunter2", false, 0, 5⟩

/-- A store with no credentials document and no automation-state document. -/
def dbNoCreds : DB := {}

/-- A store with credentials configured and no automation-state document. -/
def dbWithCreds : DB := { credentials := some sampleCreds }

/-- The default automation state: idle, nothing set. -/
def idleState : AutomationState := {}

/-- A store whose automation state is idle. -/
def dbIdle : DB := { credentials := some sampleCreds, automation_state := some idleState }

/-- A running automation state that was started at instant 0. -/
def runningState : AutomationState := { status := .running, started_at := some 0 }

/-- A store with credentials configured and a running automation state. -/
def dbRunning : DB := { credentials := some sampleCreds, automation_state := some runningState }

/-- A paused automation state with a task in flight. -/
def pausedState : AutomationState := { status := .paused, current_task := some "searching" }

/-- A store with credentials configured and a paused automation state. -/
def dbPaused : DB := { credentials := some sampleCreds, automation_state := some pausedState }

/-! Theorems for the claims. -/

/-- C1: for every stored-database state, Start with no credentials document
fails with the 400 configuration-missing error and leaves the store — in
particular the persisted `AutomationState` — unchanged; with credentials
configured, Start persists a state whose status is running, whose
`error_message` is cleared to none, and whose `started_at` is the current
instant. -/
theorem start_credentials_gate (db : DB) (now : Nat) :
    (db.credentials = none →
      (start_automation db now).fst = db ∧
      (start_automation db now).snd =
        Except.error ⟨400, "LinkedIn credentials not configured"⟩) ∧
    (db.credentials ≠ none →
      ∃ st, (start_automation db now).fst.automation_state = some st ∧
        st.status = .running ∧ st.error_message = none ∧ st.started_at = some now) := by
  constructor
  · intro h
    constructor <;> simp [start_automation, h]
  · intro h
    obtain ⟨c, hcs⟩ := Option.ne_none_iff_exists'.mp h
    refine ⟨{ db.automation_state.getD {} with
      status := .running, started_at := some now, error_message := none }, ?_, rfl, rfl, rfl⟩
    simp [start_automation, hcs, log_activity, upsertAutomationState]

/-- Witness for C1: the gate refuses a store without credentials and leaves
it untouched, and on a store with credentials it produces a running state
with a cleared error message. -/
theorem start_credentials_gate_witness :
    ((start_automation dbNoCreds 0).fst = dbNoCreds ∧
      (start_automation dbNoCreds 0).snd =
        Except.error ⟨400, "LinkedIn credentials not configured"⟩) ∧
    (∃ st, (start_automation dbWithCreds 7).fst.automation_state = some st ∧
      st.status = .running ∧ st.error_message = none ∧ st.started_at = some 7) :=
  ⟨(start_credentials_gate dbNoCreds 0).1 rfl,
    (start_credentials_gate dbWithCreds 7).2 (by simp [dbWithCreds])⟩

/-- C2 counterexample: with the automation state idle, Pause does not return
an invalid-transition signal and does not leave the persisted status
unchanged — it succeeds and persists status paused; likewise Resume from
idle succeeds and persists status running. -/
theorem pause_resume_no_precondition_counterexample :
    (pause_automation dbIdle).fst.automation_state = some { idleState with status := .paused } ∧
    (pause_automation dbIdle).snd = ⟨"Automation paused", "paused"⟩ ∧
    (resume_automation dbIdle).fst.automation_state =
      some { idleState with status := .running } ∧
    (resume_automation dbIdle).snd = ⟨"Automation resumed", "running"⟩ ∧
    AutomationStatus.paused ≠ AutomationStatus.idle := by
  refine ⟨rfl, rfl, rfl, rfl, by decide⟩

/-- C2 amended: Pause and Resume are unconditional — whatever the current
automation state (even absent), Pause persists status paused and reports
success, and Resume persists status running and reports success; no
precondition is checked and no invalid-transition signal exists. -/
theorem pause_resume_unconditional (db : DB) :
    (pause_automation db).fst.automation_state =
      some { db.automation_state.getD {} with status := .paused } ∧
    (pause_automation db).snd = ⟨"Automation paused", "paused"⟩ ∧
    (resume_automation db).fst.automation_state =
      some { db.automation_state.getD {} with status := .running } ∧
    (resume_automation db).snd = ⟨"Automation resumed", "running"⟩ :=
  ⟨rfl, rfl, rfl, rfl⟩

/-- C3: from a running or paused automation state, Stop persists a state with
status idle and `current_task` cleared to none, and its response reports
idle. -/
theorem stop_resets_to_idle (db : DB) (st : AutomationState)
    (hs : db.automation_state = some st)
    (hrp : st.status = .running ∨ st.status = .paused) :
    (∃ st1, (stop_automation db).fst.automation_state = some st1 ∧
      st1.status = .idle ∧ st1.current_task = none) ∧
    (stop_automation db).snd = ⟨"Automation stopped", "idle"⟩ := by
  refine ⟨⟨{ st with status := .idle, current_task := none }, ?_, rfl, rfl⟩, rfl⟩
  simp [stop_automation, hs, log_activity, upsertAutomationState]

/-- Witness for C3: stopping the running fixture and the paused fixture each
yields an idle state with no current task. -/
theorem stop_resets_to_idle_witness :
    ((∃ st1, (stop_automation dbRunning).fst.automation_state = some st1 ∧
      st1.status = .idle ∧ st1.current_task = none) ∧
      (stop_automation dbRunning).snd = ⟨"Automation stopped", "idle"⟩) ∧
    ((∃ st1, (stop_automation dbPaused).fst.automation_state = some st1 ∧
      st1.status = .idle ∧ st1.current_task = none) ∧
      (stop_automation dbPaused).snd = ⟨"Automation stopped", "idle"⟩) :=
  ⟨stop_resets_to_idle dbRunning runningState rfl (Or.inl rfl),
    stop_resets_to_idle dbPaused pausedState rfl (Or.inr rfl)⟩

/-- C5 counterexample: PUT /rate-limits performs no validation — sending
`daily_connection_limit = 0` against the default stored configuration stores
a configuration that violates the positivity requirement of the invariant. -/
theorem rate_limit_update_breaks_invariant_counterexample :
    ¬ RateLimitInvariant
      (update_rate_limits (some {}) { daily_connection_limit := some 0 } 1) := by
  decide

/-- C5 amended: the default `RateLimitConfig` satisfies the invariant, and an
update that supplies no fields preserves it (only `updated_at` changes); but
the update endpoint validates nothing, so supplied values are stored verbatim
and may break the invariant. -/
theorem rate_limit_invariant_default_and_empty_update (cfg : RateLimitConfig) (now : Nat)
    (h : RateLimitInvariant cfg) :
    RateLimitInvariant ({} : RateLimitConfig) ∧
    RateLimitInvariant (update_rate_limits (some cfg) {} now) ∧
    RateLimitInvariant (update_rate_limits none {} now) := by
  refine ⟨by decide, ?_, ?_⟩
  · simpa [update_rate_limits, applyRateLimitUpdate, RateLimitInvariant] using h
  · simp only [update_rate_limits, applyRateLimitUpdate, RateLimitInvariant]
    norm_num

/-- Witness for C5 amended: at the default configuration the hypothesis holds
and the empty update preserves the invariant. -/
theorem rate_limit_invariant_default_and_empty_update_witness :
    RateLimitInvariant ({} : RateLimitConfig) ∧
    RateLimitInvariant (update_rate_limits (some {}) {} 3) ∧
    RateLimitInvariant (update_rate_limits none {} 3) :=
  rate_limit_invariant_default_and_empty_update {} 3 (by decide)

/-- C6 counterexample: a Start rejected for missing credentials writes no
activity-log entry at all — the log is unchanged although the command
failed — contradicting that every failure produces exactly one entry. -/
theorem start_failure_writes_no_log_counterexample :
    (start_automation dbNoCreds 0).fst.activity_logs = dbNoCreds.activity_logs ∧
    (start_automation dbNoCreds 0).fst.activity_logs.length = 0 ∧
    (start_automation dbNoCreds 0).snd =
      Except.error ⟨400, "LinkedIn credentials not configured"⟩ :=
  ⟨rfl, rfl, rfl⟩

/-- C6 amended: every lifecycle transition that completes appends exactly one
activity-log entry and persists the automation-state document; but the
failure path of Start (missing credentials) raises before any write, so it
appends no log entry and leaves the whole store unchanged. -/
theorem lifecycle_transition_logging (db : DB) (now : Nat) :
    (db.credentials ≠ none →
      (start_automation db now).fst.activity_logs =
        db.activity_logs ++ [⟨"automation", "Automation started", "success"⟩] ∧
      (start_automation db now).fst.automation_state.isSome = true) ∧
    (db.credentials = none → (start_automation db now).fst = db) ∧
    ((stop_automation db).fst.activity_logs =
      db.activity_logs ++ [⟨"automation", "Automation stopped", "success"⟩] ∧
      (stop_automation db).fst.automation_state.isSome = true) ∧
    ((pause_automation db).fst.activity_logs =
      db.activity_logs ++ [⟨"automation", "Automation paused", "success"⟩] ∧
      (pause_automation db).fst.automation_state.isSome = true) ∧
    ((resume_automation db).fst.activity_logs =
      db.activity_logs ++ [⟨"automation", "Automation resumed", "success"⟩] ∧
      (resume_automation db).fst.automation_state.isSome = true) := by
  refine ⟨?_, ?_, ⟨rfl, rfl⟩, ⟨rfl, rfl⟩, ⟨rfl, rfl⟩⟩
  · intro h
    obtain ⟨c, hcs⟩ := Option.ne_none_iff_exists'.mp h
    constructor <;> simp [start_automation, hcs, log_activity]
  · intro h
    simp [start_automation, h]

/-- Witness for C6 amended: on the credentialed running fixture Start appends
one log entry, and on the store without credentials Start leaves the store
unchanged. -/
theorem lifecycle_transition_logging_witness :
    ((start_automation dbRunning 1).fst.activity_logs =
      dbRunning.activity_logs ++ [⟨"automation", "Automation started", "success"⟩] ∧
      (start_automation dbRunning 1).fst.automation_state.isSome = true) ∧
    (start_automation dbNoCreds 1).fst = dbNoCreds :=
  ⟨(lifecycle_transition_logging dbRunning 1).1 (by simp [dbRunning]),
    (lifecycle_transition_logging dbNoCreds 1).2.1 rfl⟩

/-- C7 counterexample: with the state already running (started at instant 0),
a second Start at instant 1 is not a no-op — it overwrites `started_at` with
the new instant, so the persisted state changes. -/
theorem start_while_running_not_noop_counterexample :
    (start_automation dbRunning 1).fst.automation_state =
      some { runningState with started_at := some 1 } ∧
    (start_automation dbRunning 1).fst.automation_state ≠ dbRunning.automation_state := by
  refine ⟨rfl, by decide⟩

/-- C7 amended: a second Start while the state is running succeeds and
re-applies the start write — status stays running, `started_at` is
overwritten with the current instant and `error_message` is cleared, while
the remaining fields are retained — and it returns the fixed start response,
not the current state. -/
theorem start_while_running_reapplies (db : DB) (st : AutomationState) (now : Nat)
    (hc : db.credentials ≠ none) (hs : db.automation_state = some st)
    (hr : st.status = .running) :
    (start_automation db now).fst.automation_state =
      some { st with status := .running, started_at := some now, error_message := none } ∧
    (start_automation db now).snd = Except.ok ⟨"Automation started", "running"⟩ := by
  obtain ⟨c, hcs⟩ := Option.ne_none_iff_exists'.mp hc
  constructor <;> simp [start_automation, hcs, hs, log_activity, upsertAutomationState]

/-- Witness for C7 amended: on the running fixture, Start at instant 1 yields
the same state with `started_at` rewritten to 1 and the start response. -/
theorem start_while_running_reapplies_witness :
    (start_automation dbRunning 1).fst.automation_state =
      some { runningState with status := .running, started_at := some 1, error_message := none } ∧
    (start_automation dbRunning 1).snd = Except.ok ⟨"Automation started", "running"⟩ :=
  start_while_running_reapplies dbRunning runningState 1 (by simp [dbRunning]) rfl rfl

/-- C8: the response of GET /credentials carries only the configured flag,
the email and `updated_at` — changing only the stored password leaves the
response identical, so the password never reaches the response. -/
theorem credentials_response_hides_password (db : DB) (c : LinkedInCredentials) (p : String) :
    get_credentials { db with credentials := some { c with password := p } } =
      get_credentials { db with credentials := some c } ∧
    get_credentials { db with credentials := some c } =
      ⟨true, c.email, some c.updated_at⟩ :=
  ⟨rfl, rfl⟩

/-- C9: PUT /rate-limits on an existing stored configuration modifies exactly
the fields supplied with non-null values plus `updated_at`; every omitted or
null field retains its previously stored value. -/
theorem rate_limit_update_frame (cfg : RateLimitConfig) (u : RateLimitConfigUpdate) (now : Nat) :
    (update_rate_limits (some cfg) u now).daily_connection_limit =
      u.daily_connection_limit.getD cfg.daily_connection_limit ∧
    (update_rate_limits (some cfg) u now).daily_message_limit =
      u.daily_message_limit.getD cfg.daily_message_limit ∧
    (update_rate_limits (some cfg) u now).min_action_delay_ms =
      u.min_action_delay_ms.getD cfg.min_action_delay_ms ∧
    (update_rate_limits (some cfg) u now).max_action_delay_ms =
      u.max_action_delay_ms.getD cfg.max_action_delay_ms ∧
    (update_rate_limits (some cfg) u now).business_hours_start =
      u.business_hours_start.getD cfg.business_hours_start ∧
    (update_rate_limits (some cfg) u now).business_hours_end =
      u.business_hours_end.getD cfg.business_hours_end ∧
    (update_rate_limits (some cfg) u now).skip_weekends =
      u.skip_weekends.getD cfg.skip_weekends ∧
    (update_rate_limits (some cfg) u now).updated_at = now :=
  ⟨rfl, rfl, rfl, rfl, rfl, rfl, rfl, rfl⟩

/-! Lemmas about the limiter used by the daily-cap theorem. -/

/-- When the state already counts for day `d` (or nothing was ever consumed),
the day-boundary check changes nothing. -/
lemma resetIfNewDay_of_inv (st : LimiterState) (d : Nat)
    (h : st.last_action_date = none ∨ st.last_action_date = some d) :
    resetIfNewDay st d = st := by
  cases h with
  | inl h => simp [resetIfNewDay, h]
  | inr h => simp [resetIfNewDay, h]

/-- Recording a success stamps the state with the day of the action. -/
lemma recordSuccess_last (st : LimiterState) (day : Nat) (k : ActionKind) :
    (recordSuccess st day k).last_action_date = some day := by
  cases k <;> simp [recordSuccess]

/-- Recording a success of kind `k` increments exactly the counter of `k`. -/
lemma countOf_recordSuccess_same (st : LimiterState) (day : Nat) (k : ActionKind) :
    countOf (recordSuccess st day k) k = countOf st k + 1 := by
  cases k <;> simp [recordSuccess, countOf]

/-- Recording a success of kind `k` leaves the counter of any other kind
untouched. -/
lemma countOf_recordSuccess_other (st : LimiterState) (day : Nat) (k j : ActionKind)
    (h : k ≠ j) :
    countOf (recordSuccess st day k) j = countOf st j := by
  cases k <;> cases j <;> simp_all [recordSuccess, countOf]

/-- Within a single day, starting from a state that counts for that day and
whose counter of kind `k` is within the cap, the counter plus everything the
history consumes of kind `k` stays within the cap. -/
lemma limiter_day_bound (cfg : RateLimitConfig) (d : Nat) (k : ActionKind)
    (tr : List Attempt) :
    ∀ st : LimiterState,
      (∀ a ∈ tr, a.day = d) →
      (st.last_action_date = none ∨ st.last_action_date = some d) →
      (countOf st k : Int) ≤ limitOf cfg k →
      (countOf st k : Int) + (consumedCount cfg st k tr : Int) ≤ limitOf cfg k := by
  induction tr with
  | nil =>
    intro st _ _ hcount
    simpa [consumedCount] using hcount
  | cons a rest ih =>
    intro st hday hinv hcount
    have hd : a.day = d := hday a (List.mem_cons_self a rest)
    have hreset : resetIfNewDay st a.day = st := by
      rw [hd]; exact resetIfNewDay_of_inv st d hinv
    have hrest : ∀ b ∈ rest, b.day = d := fun b hb => hday b (List.mem_cons_of_mem a hb)
    by_cases hb :
        (decide ((countOf st a.kind : Int) < limitOf cfg a.kind) && a.dispatch_success) = true
    · have hstep : limiterStep cfg st a = (recordSuccess st a.day a.kind, true) := by
        simp only [limiterStep, tryConsume, hreset, hb, if_true]
      have hlt : (countOf st a.kind : Int) < limitOf cfg a.kind := by
        have := (Bool.and_eq_true _ _).mp hb
        exact of_decide_eq_true this.1
      have hinv1 : (recordSuccess st a.day a.kind).last_action_date = none ∨
          (recordSuccess st a.day a.kind).last_action_date = some d := by
        right; rw [recordSuccess_last, hd]
      by_cases hk : a.kind = k
      · have hcount1 : (countOf (recordSuccess st a.day a.kind) k : Int) ≤ limitOf cfg k := by
          rw [hk] at hlt ⊢
          rw [countOf_recordSuccess_same]
          push_cast
          omega
        have hrec := ih (recordSuccess st a.day a.kind) hrest hinv1 hcount1
        rw [hk, countOf_recordSuccess_same] at hrec
        simp only [consumedCount, hstep, hk, beq_self_eq_true, Bool.and_self, if_true]
        push_cast at hrec ⊢
        omega
      · have hcount1 : (countOf (recordSuccess st a.day a.kind) k : Int) ≤ limitOf cfg k := by
          rw [countOf_recordSuccess_other st a.day a.kind k hk]
          exact hcount
        have hrec := ih (recordSuccess st a.day a.kind) hrest hinv1 hcount1
        rw [countOf_recordSuccess_other st a.day a.kind k hk] at hrec
        have hbeq : (a.kind == k) = false := by
          simpa using hk
        simp only [consumedCount, hstep, hbeq, Bool.and_false, if_false]
        simpa using hrec
    · have hstep : limiterStep cfg st a = (st, false) := by
        simp [limiterStep, tryConsume, hreset, hb]
      have hrec := ih st hrest hinv hcount
      simp only [consumedCount, hstep, Bool.false_and, if_false]
      simpa using hrec

/-- C4: for every configuration with non-negative caps and every single-day
consumption history, the limiter consumes at most `daily_connection_limit`
connections and at most `daily_message_limit` messages; a denied or failed
attempt never changes the counters beyond the day-boundary check; the
boundary check is a no-op within the same day, zeroes both counters exactly
when the day changes, and applying it twice equals applying it once. -/
theorem tryConsume_daily_cap (cfg : RateLimitConfig) (d : Nat) (tr : List Attempt)
    (hconn : 0 ≤ cfg.daily_connection_limit) (hmsg : 0 ≤ cfg.daily_message_limit)
    (hday : ∀ a ∈ tr, a.day = d) :
    (consumedCount cfg initLimiter .connect tr : Int) ≤ cfg.daily_connection_limit ∧
    (consumedCount cfg initLimiter .message tr : Int) ≤ cfg.daily_message_limit ∧
    (∀ st a, (limiterStep cfg st a).snd = false →
      (limiterStep cfg st a).fst = resetIfNewDay st a.day) ∧
    (∀ st day, st.last_action_date = some day → resetIfNewDay st day = st) ∧
    (∀ st day d0, st.last_action_date = some d0 → d0 ≠ day →
      resetIfNewDay st day = ⟨0, 0, some day⟩) ∧
    (∀ st day, resetIfNewDay (resetIfNewDay st day) day = resetIfNewDay st day) := by
  refine ⟨?_, ?_, ?_, ?_, ?_, ?_⟩
  · have h := limiter_day_bound cfg d .connect tr initLimiter hday (Or.inl rfl) ?_
    · simpa [initLimiter, countOf] using h
    · simpa [initLimiter, countOf, limitOf] using hconn
  · have h := limiter_day_bound cfg d .message tr initLimiter hday (Or.inl rfl) ?_
    · simpa [initLimiter, countOf] using h
    · simpa [initLimiter, countOf, limitOf] using hmsg
  · intro st a hfail
    by_cases hb :
        (decide ((countOf (resetIfNewDay st a.day) a.kind : Int) < limitOf cfg a.kind) &&
          a.dispatch_success) = true
    · exfalso
      have : (limiterStep cfg st a).snd = true := by
        simp only [limiterStep, tryConsume, hb, if_true]
      rw [this] at hfail
      exact Bool.true_eq_false.mp hfail
    · simp [limiterStep, tryConsume, hb]
  · intro st day h
    simp [resetIfNewDay, h]
  · intro st day d0 h hne
    simp [resetIfNewDay, h, hne]
  · intro st day
    cases h : st.last_action_date with
    | none => simp [resetIfNewDay, h]
    | some d0 =>
      by_cases hde : d0 = day
      · simp [resetIfNewDay, h, hde]
      · simp [resetIfNewDay, h, hde]

/-- Witness for C4: on the default configuration and a concrete two-success
single-day history, the consumed connection count stays within the cap of
fifty, and the structural conjuncts hold. -/
theorem tryConsume_daily_cap_witness :
    (0 : Int) ≤ ({} : RateLimitConfig).daily_connection_limit ∧
    (consumedCount {} initLimiter .connect
      [⟨0, .connect, true⟩, ⟨0, .connect, true⟩, ⟨0, .message, false⟩] : Int) ≤
      ({} : RateLimitConfig).daily_connection_limit :=
  ⟨by decide,
    (tryConsume_daily_cap {} 0
      [⟨0, .connect, true⟩, ⟨0, .connect, true⟩, ⟨0, .message, false⟩]
      (by decide) (by decide) (by decide)).1⟩

/-- Rounding zero to one decimal place gives zero. -/
lemma round1_zero : round1 0 = 0 := by
  norm_num [round1, roundHalfEven, Int.fract]

/-- A concrete store for the dashboard witness: three connections of which
one is accepted. -/
def statsDb : DB :=
  { connections := [⟨.accepted, 0⟩, ⟨.pending, 1⟩, ⟨.declined, 2⟩], messages := [⟨0⟩] }

/-- C10: the dashboard statistics report the connection totals, and the
success rate is the accepted-over-total percentage rounded to one decimal
place whenever there is at least one connection, and exactly zero when there
are none — the guarded branch never divides. -/
theorem dashboard_success_rate_guarded (db : DB) (todayStart : Nat) :
    (get_dashboard_stats db todayStart).total_connections = db.connections.length ∧
    (get_dashboard_stats db todayStart).accepted_connections =
      db.connections.countP (fun c => c.status == .accepted) ∧
    (db.connections.length = 0 → (get_dashboard_stats db todayStart).success_rate = 0) ∧
    (0 < db.connections.length →
      (get_dashboard_stats db todayStart).success_rate =
        round1 (((db.connections.countP (fun c => c.status == .accepted) : ℚ) /
          (db.connections.length : ℚ)) * 100)) := by
  refine ⟨rfl, rfl, ?_, ?_⟩
  · intro h
    simp [get_dashboard_stats, h, round1_zero]
  · intro h
    simp [get_dashboard_stats, h]

/-- Witness for C10: on a store with three connections (one accepted) the
success rate is the rounded percentage, and on an empty store it is zero. -/
theorem dashboard_success_rate_guarded_witness :
    0 < statsDb.connections.length ∧
    (get_dashboard_stats statsDb 0).success_rate =
      round1 (((statsDb.connections.countP (fun c => c.status == .accepted) : ℚ) /
        (statsDb.connections.length : ℚ)) * 100) ∧
    (get_dashboard_stats dbNoCreds 0).success_rate = 0 :=
  ⟨by decide, (dashboard_success_rate_guarded statsDb 0).2.2.2 (by decide),
    (dashboard_success_rate_guarded dbNoCreds 0).2.2.1 rfl⟩

end LinkedIn
